import Mathlib

/-!
# Jal-Rakshya alert engine — shallow embedding

Embedding of the Dynamic Alert Engine (`generateAlerts`) and the
government-update generator (`generateGovUpdates`) of the Jal-Rakshya
repository.

Modelling conventions:
* JS numbers on the data path are rationals (`ℚ`); a numeric field that
  may be absent is a `JSNum` (`num q`, `null`, or `undefined`), and every
  JS relational comparison is embedded through ECMAScript ToNumber
  coercion: `null` coerces to 0 (so `null <= 600` is true) and
  `undefined` to NaN, which fails every comparison.  `scarcityLevel` is
  consumed only by strict equality (`===`), under which `null` and
  `undefined` both simply differ from every string, so it stays an
  `Option String` with `none` for either absent form.
* An alert's `title`, `type` (severity), `category` and `value` are
  modelled; the `message`, `recommendation`, `threshold` and `timestamp`
  fields are presentation-only strings (or wall-clock time) that no claim
  refers to, and are omitted.  Record fields that feed only those omitted
  strings (`agriculturalUsage`, `industrialUsage`, `householdUsage`) are
  kept in the record for shape fidelity but are unused by the logic.
* `alerts.push(x)` in straight-line code is list append in program order.
* The external collaborator `calculateWaterScore` (required from
  `./waterScore`, not part of the embedded core) is an injected function
  parameter `WaterRecord → ℚ`, as the specification directs.
-/

namespace JalRakshya

/-- Alert severity: the `type` field of an alert (`'critical' | 'warning' | 'info'`). -/
inductive Severity
  | critical
  | warning
  | info
deriving DecidableEq, Repr

/-- Alert category strings of the engine. -/
inductive Category
  | waterLevel
  | depletion
  | rainfall
  | waterQuality
  | consumption
  | scarcity
  | trend
deriving DecidableEq, Repr

/-- The `value` field of an alert: a raw numeric field, a scarcity string, a
consecutive-year count, the rounded score difference, or a raw JS `null`
or `undefined` carried through from the record. -/
inductive AlertValue
  | num (q : ℚ)
  | str (s : String)
  | count (n : ℕ)
  | int (z : ℤ)
  | null
  | undefined
deriving DecidableEq, Repr

/-- One generated alert (modelled fields only; see module docstring). -/
structure Alert where
  type : Severity
  category : Category
  title : String
  value : AlertValue
deriving DecidableEq, Repr

/-- A JS value sitting in a numeric record field: an actual number, or the
two absent forms `null` and `undefined`, which JS relational operators
treat differently (`null` coerces to 0, `undefined` to NaN). -/
inductive JSNum
  | num (q : ℚ)
  | null
  | undefined
deriving DecidableEq, Repr

/-- ECMAScript ToNumber on the values a numeric field can hold: a number is
itself, `null` coerces to 0, `undefined` to NaN (modelled as `none`,
which fails every comparison). -/
def toNum : JSNum → Option ℚ
  | .num q => some q
  | .null => some 0
  | .undefined => none

/-- One yearly water record.  A numeric field holds a `JSNum` (defaulting
to `undefined` when the field is missing); `scarcityLevel` is a free-form
string that may be absent. -/
structure WaterRecord where
  year : ℤ := 0
  location : String := ""
  groundwaterLevel : JSNum := .undefined
  depletionRate : JSNum := .undefined
  rainfall : JSNum := .undefined
  ph : JSNum := .undefined
  consumption : JSNum := .undefined
  agriculturalUsage : JSNum := .undefined
  industrialUsage : JSNum := .undefined
  householdUsage : JSNum := .undefined
  scarcityLevel : Option String := none
deriving DecidableEq, Repr

/-- JS `x >= c`: abstract relational comparison after ToNumber coercion
(`null` compares as 0, `undefined` as NaN fails). -/
def jsGe (x : JSNum) (c : ℚ) : Bool :=
  match toNum x with
  | some v => decide (c ≤ v)
  | none => false

/-- JS `x <= c`: abstract relational comparison after ToNumber coercion
(`null` compares as 0, so `null <= 600` is true; `undefined` fails). -/
def jsLe (x : JSNum) (c : ℚ) : Bool :=
  match toNum x with
  | some v => decide (v ≤ c)
  | none => false

/-- JS `x < c`: abstract relational comparison after ToNumber coercion
(`null` compares as 0, so `null < 700` is true; `undefined` fails). -/
def jsLt (x : JSNum) (c : ℚ) : Bool :=
  match toNum x with
  | some v => decide (v < c)
  | none => false

/-- JS `x > y` between two record fields, each put through ToNumber: false
whenever either side is `undefined` (NaN), with `null` comparing as 0. -/
def jsGtO (x y : JSNum) : Bool :=
  match toNum x, toNum y with
  | some a, some b => decide (b < a)
  | _, _ => false

/-- JS `x < y` between two record fields, each put through ToNumber: false
whenever either side is `undefined` (NaN), with `null` comparing as 0. -/
def jsLtO (x y : JSNum) : Bool :=
  match toNum x, toNum y with
  | some a, some b => decide (a < b)
  | _, _ => false

/-- The alert `value` for a raw numeric field: the field's own JS value. -/
def valNum (x : JSNum) : AlertValue :=
  match x with
  | .num q => .num q
  | .null => .null
  | .undefined => .undefined

/-- String interpolation of a possibly-missing string, as a JS template renders it. -/
def jsStr (x : Option String) : String :=
  match x with
  | some s => s
  | none => "undefined"

/-- The `ALERT_THRESHOLDS` constant table. -/
structure Thresholds where
  criticalWaterLevel : ℚ
  warningWaterLevel : ℚ
  highDepletion : ℚ
  criticalDepletion : ℚ
  lowRainfall : ℚ
  criticalRainfall : ℚ
  highPH : ℚ
  lowPH : ℚ
  highConsumption : ℚ
deriving DecidableEq, Repr

/-- The fixed threshold values of the engine. -/
def ALERT_THRESHOLDS : Thresholds :=
  { criticalWaterLevel := 15
    warningWaterLevel := 12
    highDepletion := 5
    criticalDepletion := 7
    lowRainfall := 700
    criticalRainfall := 600
    highPH := 8
    lowPH := 6.5
    highConsumption := 500 }

/-- Water Level check: `critical` at depth `>= 15`, else `warning` at `>= 12`. -/
def waterLevelAlerts (data : WaterRecord) : List Alert :=
  if jsGe data.groundwaterLevel ALERT_THRESHOLDS.criticalWaterLevel then
    [⟨.critical, .waterLevel, "🚨 Critical Water Level", valNum data.groundwaterLevel⟩]
  else if jsGe data.groundwaterLevel ALERT_THRESHOLDS.warningWaterLevel then
    [⟨.warning, .waterLevel, "⚠️ Low Water Table", valNum data.groundwaterLevel⟩]
  else []

/-- Depletion check: `critical` at rate `>= 7`, else `warning` at `>= 5`. -/
def depletionAlerts (data : WaterRecord) : List Alert :=
  if jsGe data.depletionRate ALERT_THRESHOLDS.criticalDepletion then
    [⟨.critical, .depletion, "🚨 Over-extraction Detected", valNum data.depletionRate⟩]
  else if jsGe data.depletionRate ALERT_THRESHOLDS.highDepletion then
    [⟨.warning, .depletion, "⚠️ High Depletion Rate", valNum data.depletionRate⟩]
  else []

/-- Rainfall check: `critical` at `<= 600`, else `warning` at `<= 700`. -/
def rainfallAlerts (data : WaterRecord) : List Alert :=
  if jsLe data.rainfall ALERT_THRESHOLDS.criticalRainfall then
    [⟨.critical, .rainfall, "🚨 Drought Risk", valNum data.rainfall⟩]
  else if jsLe data.rainfall ALERT_THRESHOLDS.lowRainfall then
    [⟨.warning, .rainfall, "⚠️ Below Normal Rainfall", valNum data.rainfall⟩]
  else []

/-- pH check: `warning` when `ph >= 8.0` or `ph <= 6.5`. -/
def phAlerts (data : WaterRecord) : List Alert :=
  if jsGe data.ph ALERT_THRESHOLDS.highPH || jsLe data.ph ALERT_THRESHOLDS.lowPH then
    [⟨.warning, .waterQuality, "⚠️ pH Imbalance", valNum data.ph⟩]
  else []

/-- Consumption check: `info` when `consumption >= 500`. -/
def consumptionAlerts (data : WaterRecord) : List Alert :=
  if jsGe data.consumption ALERT_THRESHOLDS.highConsumption then
    [⟨.info, .consumption, "ℹ️ High Water Consumption", valNum data.consumption⟩]
  else []

/-- Scarcity check: `critical` when `scarcityLevel === 'Severe' || === 'Extreme'`. -/
def scarcityAlerts (data : WaterRecord) : List Alert :=
  if data.scarcityLevel = some "Severe" ∨ data.scarcityLevel = some "Extreme" then
    [⟨.critical, .scarcity, "🚨 " ++ jsStr data.scarcityLevel ++ " Water Scarcity",
      match data.scarcityLevel with
      | some s => .str s
      | none => .undefined⟩]
  else []

/-- The point-in-time evaluator: the six threshold checks in program order. -/
def thresholdAlerts (data : WaterRecord) : List Alert :=
  waterLevelAlerts data ++ depletionAlerts data ++ rainfallAlerts data ++
    phAlerts data ++ consumptionAlerts data ++ scarcityAlerts data

/-- Line 146, `const sorted = [...history].sort((a, b) => a.year - b.year)`:
the spread copies the array, the (stable) sort rearranges only that copy.
The pair returned is (the sorted copy, the caller's array after the
statement); the second component records that the statement leaves the
caller-supplied array itself untouched. -/
def sortCopyByYear (history : List WaterRecord) : List WaterRecord × List WaterRecord :=
  (history.mergeSort (fun a b => decide (a.year ≤ b.year)), history)

/-- The streak loop of the trend scanner: walk adjacent pairs left to right,
incrementing the counter on a bad-direction step and resetting it to 0
otherwise; the value after the whole walk is returned. -/
def streakLoop {α : Type} (step : α → α → Bool) : ℕ → List α → ℕ
  | c, a :: b :: rest => streakLoop step (if step a b then c + 1 else 0) (b :: rest)
  | c, _ => c

/-- Bad-direction step for water level: `sorted[i].groundwaterLevel > sorted[i-1].groundwaterLevel`. -/
def gwRiseStep (prev cur : WaterRecord) : Bool :=
  jsGtO cur.groundwaterLevel prev.groundwaterLevel

/-- Bad-direction step for depletion: `sorted[i].depletionRate > sorted[i-1].depletionRate`. -/
def depRiseStep (prev cur : WaterRecord) : Bool :=
  jsGtO cur.depletionRate prev.depletionRate

/-- Bad-direction step for rainfall: `sorted[i].rainfall < sorted[i-1].rainfall`. -/
def rainDropStep (prev cur : WaterRecord) : Bool :=
  jsLtO cur.rainfall prev.rainfall

/-- Title of the water-level streak trend alert. -/
def riseTitle : String := "📉 Sustained Water Level Decline"

/-- Title of the depletion streak trend alert. -/
def depTrendTitle : String := "📊 Accelerating Depletion Trend"

/-- Title of the rainfall streak trend alert. -/
def rainTrendTitle : String := "🌧️ Declining Rainfall Pattern"

/-- Title of the split-half health-decline trend alert. -/
def healthTitle : String := "⚡ Overall Water Health Declining"

/-- JS `arr.reduce((a, b) => a + b, 0) / arr.length`: the arithmetic mean. -/
def avg (l : List ℚ) : ℚ := l.sum / l.length

/-- JS `Math.round`: round to the nearest integer, half away from minus
infinity (`Math.round(-9.5) = -9`), i.e. the floor of `q + 1/2`. -/
def jsRound (q : ℚ) : ℤ := ⌊q + 1/2⌋

/-- The trend scanner (`if (history && history.length >= 3) { ... }` body):
three trailing-streak checks over the year-sorted copy, then the split-half
health-decline check, each appending at most one alert in program order.
`calculateWaterScore` is the injected external scoring collaborator. -/
def trendAlerts (calculateWaterScore : WaterRecord → ℚ) (history : List WaterRecord) :
    List Alert :=
  if 3 ≤ history.length then
    let sorted := (sortCopyByYear history).1
    let consecutiveRise := streakLoop gwRiseStep 0 sorted
    let consecutiveDepIncrease := streakLoop depRiseStep 0 sorted
    let consecutiveRainfallDrop := streakLoop rainDropStep 0 sorted
    let scores := sorted.map calculateWaterScore
    let firstHalf := scores.take (scores.length / 2)
    let secondHalf := scores.drop (scores.length / 2)
    let avgFirst := avg firstHalf
    let avgSecond := avg secondHalf
    (if 3 ≤ consecutiveRise then
      [⟨.warning, .trend, riseTitle, .count consecutiveRise⟩] else []) ++
    (if 3 ≤ consecutiveDepIncrease then
      [⟨.critical, .trend, depTrendTitle, .count consecutiveDepIncrease⟩] else []) ++
    (if 3 ≤ consecutiveRainfallDrop then
      [⟨.warning, .trend, rainTrendTitle, .count consecutiveRainfallDrop⟩] else []) ++
    (if avgSecond < avgFirst - 10 then
      [⟨.warning, .trend, healthTitle, .int (jsRound (avgSecond - avgFirst))⟩] else [])
  else []

/-- The function `generateAlerts(data, history)`: the six threshold checks on `data`,
then (when a history of at least three records is supplied) the trend
alerts appended after them.  The optional `history` parameter is an
`Option`; the trend scanner reads `data` only for message strings, which
are not modelled, so only `history` feeds the trend alerts here. -/
def generateAlerts (calculateWaterScore : WaterRecord → ℚ) (data : WaterRecord)
    (history : Option (List WaterRecord)) : List Alert :=
  thresholdAlerts data ++
    match history with
    | some h => trendAlerts calculateWaterScore h
    | none => []

/-- Government-update priority (`'high' | 'normal'`). -/
inductive Priority
  | high
  | normal
deriving DecidableEq, Repr

/-- One government update (modelled fields: `id`, `title`, `priority`;
`body`, `date` and `source` are presentation strings no claim refers to). -/
structure GovUpdate where
  id : ℕ
  title : String
  priority : Priority
deriving DecidableEq, Repr

/-- The five updates built from the latest record in `generateGovUpdates`. -/
def govUpdatesFor (latest : WaterRecord) : List GovUpdate :=
  [⟨1, "Groundwater Status Report",
      if latest.scarcityLevel = some "Severe" ∨ latest.scarcityLevel = some "Extreme" then
        .high else .normal⟩,
   ⟨2, "Rainfall Monitoring Update",
      if jsLt latest.rainfall 700 then .high else .normal⟩,
   ⟨3, "Water Quality Assessment", .normal⟩,
   ⟨4, "Usage Distribution Report", .normal⟩,
   ⟨5, "Jal Shakti Abhiyan Advisory",
      if latest.scarcityLevel = some "High" ∨ latest.scarcityLevel = some "Severe" then
        .high else .normal⟩]

/-- The function `generateGovUpdates(locationData)`: read the last element; if the array
is empty (`latest` is `undefined`) return `[]`, otherwise the five updates. -/
def generateGovUpdates (locationData : List WaterRecord) : List GovUpdate :=
  match locationData.getLast? with
  | some latest => govUpdatesFor latest
  | none => []

/-- The per-record score sequence over the year-sorted copy of a history
(line 214, `sorted.map(d => calculateWaterScore(d))`). -/
def scoresOf (calculateWaterScore : WaterRecord → ℚ) (history : List WaterRecord) : List ℚ :=
  ((sortCopyByYear history).1).map calculateWaterScore

/-- Line 215, `scores.slice(0, Math.floor(scores.length / 2))`: the first half of the
score sequence (floor-division split). -/
def firstHalfOf (calculateWaterScore : WaterRecord → ℚ) (history : List WaterRecord) : List ℚ :=
  (scoresOf calculateWaterScore history).take ((scoresOf calculateWaterScore history).length / 2)

/-- Line 216, `scores.slice(Math.floor(scores.length / 2))`: the second half of the
score sequence (for odd length the middle element falls here). -/
def secondHalfOf (calculateWaterScore : WaterRecord → ℚ) (history : List WaterRecord) : List ℚ :=
  (scoresOf calculateWaterScore history).drop ((scoresOf calculateWaterScore history).length / 2)

/-- A fully-populated sample record used as concrete test input. -/
def sampleRecord (y : ℤ) (gw dep rain : ℚ) : WaterRecord :=
  { year := y, groundwaterLevel := .num gw, depletionRate := .num dep,
    rainfall := .num rain }

/-- Three-year history: groundwater level strictly increasing every year,
depletion strictly increasing, rainfall strictly decreasing. -/
def hist3 : List WaterRecord :=
  [sampleRecord 1 10 1 900, sampleRecord 2 11 2 800, sampleRecord 3 12 3 700]

/-- Four-year history: every adjacent step moves the bad direction on all
three streak metrics. -/
def hist4 : List WaterRecord :=
  [sampleRecord 1 10 1 900, sampleRecord 2 11 2 800, sampleRecord 3 12 3 700,
    sampleRecord 4 13 4 600]

/-- Five-year history with strictly increasing groundwater level. -/
def hist5 : List WaterRecord :=
  [sampleRecord 1 10 1 900, sampleRecord 2 11 1 900, sampleRecord 3 12 1 900,
    sampleRecord 4 13 1 900, sampleRecord 5 14 1 900]

/-- Synthetic scoring collaborator: 80 for the first two years, 65 after
(split-half means 80 and 65 on `hist4`, difference −15). -/
def scoreStep80 (r : WaterRecord) : ℚ := if r.year ≤ 2 then 80 else 65

/-- Synthetic scoring collaborator: 75 then 65 (difference exactly −10). -/
def scoreStep75 (r : WaterRecord) : ℚ := if r.year ≤ 2 then 75 else 65

/-- Length of the run of consecutive satisfied steps ending at the last
element, computed by walking the reversed list from its head: this is the
specification-side notion of "trailing streak". -/
def tailRunRev {α : Type} (step : α → α → Bool) : List α → ℕ
  | b :: a :: rest => if step a b then tailRunRev step (a :: rest) + 1 else 0
  | _ => 0

/-- The trailing run of bad-direction steps: the number of adjacent steps,
counted backwards from the last element, that all satisfy `step`. -/
def trailingRun {α : Type} (step : α → α → Bool) (l : List α) : ℕ :=
  tailRunRev step l.reverse

/-! ## Category facts about the individual checks -/

lemma mem_waterLevelAlerts {d : WaterRecord} {a : Alert} (ha : a ∈ waterLevelAlerts d) :
    a.category = Category.waterLevel := by
  unfold waterLevelAlerts at ha
  split at ha
  · rw [List.mem_singleton] at ha; subst ha; rfl
  · split at ha
    · rw [List.mem_singleton] at ha; subst ha; rfl
    · exact absurd ha (List.not_mem_nil a)

lemma mem_depletionAlerts {d : WaterRecord} {a : Alert} (ha : a ∈ depletionAlerts d) :
    a.category = Category.depletion := by
  unfold depletionAlerts at ha
  split at ha
  · rw [List.mem_singleton] at ha; subst ha; rfl
  · split at ha
    · rw [List.mem_singleton] at ha; subst ha; rfl
    · exact absurd ha (List.not_mem_nil a)

lemma mem_rainfallAlerts {d : WaterRecord} {a : Alert} (ha : a ∈ rainfallAlerts d) :
    a.category = Category.rainfall := by
  unfold rainfallAlerts at ha
  split at ha
  · rw [List.mem_singleton] at ha; subst ha; rfl
  · split at ha
    · rw [List.mem_singleton] at ha; subst ha; rfl
    · exact absurd ha (List.not_mem_nil a)

lemma mem_phAlerts {d : WaterRecord} {a : Alert} (ha : a ∈ phAlerts d) :
    a.category = Category.waterQuality := by
  unfold phAlerts at ha
  split at ha
  · rw [List.mem_singleton] at ha; subst ha; rfl
  · exact absurd ha (List.not_mem_nil a)

lemma mem_consumptionAlerts {d : WaterRecord} {a : Alert} (ha : a ∈ consumptionAlerts d) :
    a.category = Category.consumption := by
  unfold consumptionAlerts at ha
  split at ha
  · rw [List.mem_singleton] at ha; subst ha; rfl
  · exact absurd ha (List.not_mem_nil a)

lemma mem_scarcityAlerts {d : WaterRecord} {a : Alert} (ha : a ∈ scarcityAlerts d) :
    a.category = Category.scarcity := by
  unfold scarcityAlerts at ha
  split at ha
  · rw [List.mem_singleton] at ha; subst ha; rfl
  · exact absurd ha (List.not_mem_nil a)

lemma mem_trendAlerts {score : WaterRecord → ℚ} {h : List WaterRecord} {a : Alert}
    (ha : a ∈ trendAlerts score h) : a.category = Category.trend := by
  unfold trendAlerts at ha
  split at ha
  · simp only [List.mem_append] at ha
    rcases ha with ((ha | ha) | ha) | ha <;> split at ha <;>
      simp only [List.mem_singleton, List.not_mem_nil] at ha <;> subst ha <;> rfl
  · exact absurd ha (List.not_mem_nil a)

lemma mem_thresholdAlerts_ne_trend {d : WaterRecord} {a : Alert}
    (ha : a ∈ thresholdAlerts d) : a.category ≠ Category.trend := by
  unfold thresholdAlerts at ha
  simp only [List.mem_append] at ha
  rcases ha with ((((ha | ha) | ha) | ha) | ha) | ha
  · rw [mem_waterLevelAlerts ha]; intro hc; cases hc
  · rw [mem_depletionAlerts ha]; intro hc; cases hc
  · rw [mem_rainfallAlerts ha]; intro hc; cases hc
  · rw [mem_phAlerts ha]; intro hc; cases hc
  · rw [mem_consumptionAlerts ha]; intro hc; cases hc
  · rw [mem_scarcityAlerts ha]; intro hc; cases hc

/-! ## Filter helpers -/

lemma filter_false_of_mem {l : List Alert} {p : Alert → Bool}
    (h : ∀ a ∈ l, p a = false) : l.filter p = [] := by
  rw [List.filter_eq_nil_iff]
  intro a ha
  simp [h a ha]

lemma filter_true_of_mem {l : List Alert} {p : Alert → Bool}
    (h : ∀ a ∈ l, p a = true) : l.filter p = l :=
  List.filter_eq_self.mpr h

/-! ## The streak loop computes the trailing run -/

lemma streakLoop_snoc {α : Type} (step : α → α → Bool) :
    ∀ (l : List α) (y x : α) (c : ℕ), l.getLast? = some y →
      streakLoop step c (l ++ [x]) = if step y x then streakLoop step c l + 1 else 0
  | [], _, _, _, hy => by simp at hy
  | [a], y, x, c, hy => by
    simp only [List.getLast?_singleton, Option.some.injEq] at hy
    subst hy
    simp [streakLoop]
  | a :: b :: t, y, x, c, hy => by
    have hy' : (b :: t).getLast? = some y := by
      rwa [List.getLast?_cons_cons] at hy
    have ih := streakLoop_snoc step (b :: t) y x (if step a b then c + 1 else 0) hy'
    simp only [List.cons_append, streakLoop] at ih ⊢
    exact ih

lemma streakLoop_eq_trailingRun {α : Type} (step : α → α → Bool) (l : List α) :
    streakLoop step 0 l = trailingRun step l := by
  induction l using List.reverseRecOn with
  | nil => rfl
  | append_singleton t x ih =>
    rcases List.eq_nil_or_concat t with rfl | ⟨t', y, rfl⟩
    · rfl
    · rw [List.concat_eq_append] at *
      rw [streakLoop_snoc step (t' ++ [y]) y x 0 (List.getLast?_concat t'),
        trailingRun, List.reverse_append, List.reverse_append]
      simp only [List.reverse_singleton, List.singleton_append, List.cons_append,
        List.nil_append, tailRunRev]
      rw [ih, trailingRun, List.reverse_append]
      simp only [List.reverse_singleton, List.singleton_append]
      simp

lemma streakLoop_le {α : Type} (step : α → α → Bool) :
    ∀ (c : ℕ) (l : List α), streakLoop step c l ≤ c + (l.length - 1)
  | _, [] => by simp [streakLoop]
  | _, [_] => by simp [streakLoop]
  | c, a :: b :: rest => by
    have ih := streakLoop_le step (if step a b then c + 1 else 0) (b :: rest)
    simp only [streakLoop, List.length_cons] at ih ⊢
    by_cases hab : step a b = true
    · simp only [if_pos hab] at ih ⊢; omega
    · simp only [if_neg hab] at ih ⊢; omega

lemma streakLoop_of_chain {α : Type} (step : α → α → Bool) :
    ∀ (c : ℕ) (l : List α), List.Chain' (fun a b => step a b = true) l →
      streakLoop step c l = c + (l.length - 1)
  | _, [], _ => by simp [streakLoop]
  | _, [_], _ => by simp [streakLoop]
  | c, a :: b :: rest, hch => by
    rw [List.chain'_cons] at hch
    have ih := streakLoop_of_chain step (c + 1) (b :: rest) hch.2
    simp only [streakLoop, List.length_cons, if_pos hch.1] at ih ⊢
    omega

/-! ## Averages -/

lemma avg_eq_zero {l : List ℚ} (h : ∀ x ∈ l, x = 0) : avg l = 0 := by
  unfold avg
  rw [List.sum_eq_zero h, zero_div]

/-! ## Title-based filters over the generated alert list -/

lemma filter_ite_singleton_self (p : Alert → Bool) (c : Prop) [Decidable c] (a : Alert)
    (hpa : p a = true) : (if c then [a] else []).filter p = if c then [a] else [] := by
  split <;> simp [hpa]

lemma filter_ite_singleton_nil (p : Alert → Bool) (c : Prop) [Decidable c] (a : Alert)
    (hpa : p a = false) : (if c then [a] else []).filter p = [] := by
  split <;> simp [hpa]

lemma filter_trend_thresholdAlerts (d : WaterRecord) (q : Alert → Bool) :
    (thresholdAlerts d).filter (fun a => a.category == Category.trend && q a) = [] :=
  filter_false_of_mem (fun a ha => by
    have hb : (a.category == Category.trend) = false :=
      beq_eq_false_iff_ne.mpr (mem_thresholdAlerts_ne_trend ha)
    rw [hb, Bool.false_and])

lemma filter_rise_trendAlerts (score : WaterRecord → ℚ) (h : List WaterRecord)
    (hlen : 3 ≤ h.length) :
    (trendAlerts score h).filter
        (fun a => a.category == Category.trend && a.title == riseTitle)
      = if 3 ≤ streakLoop gwRiseStep 0 (sortCopyByYear h).1 then
          [⟨Severity.warning, Category.trend, riseTitle,
            AlertValue.count (streakLoop gwRiseStep 0 (sortCopyByYear h).1)⟩]
        else [] := by
  unfold trendAlerts
  rw [if_pos hlen]
  simp only [List.filter_append]
  rw [filter_ite_singleton_self _ _ _ (by simp),
    filter_ite_singleton_nil _ _ _ (by simp [riseTitle, depTrendTitle]),
    filter_ite_singleton_nil _ _ _ (by simp [riseTitle, rainTrendTitle]),
    filter_ite_singleton_nil _ _ _ (by simp [riseTitle, healthTitle])]
  simp

lemma filter_dep_trendAlerts (score : WaterRecord → ℚ) (h : List WaterRecord)
    (hlen : 3 ≤ h.length) :
    (trendAlerts score h).filter
        (fun a => a.category == Category.trend && a.title == depTrendTitle)
      = if 3 ≤ streakLoop depRiseStep 0 (sortCopyByYear h).1 then
          [⟨Severity.critical, Category.trend, depTrendTitle,
            AlertValue.count (streakLoop depRiseStep 0 (sortCopyByYear h).1)⟩]
        else [] := by
  unfold trendAlerts
  rw [if_pos hlen]
  simp only [List.filter_append]
  rw [filter_ite_singleton_nil _ _ _ (by simp [riseTitle, depTrendTitle]),
    filter_ite_singleton_self _ _ _ (by simp),
    filter_ite_singleton_nil _ _ _ (by simp [depTrendTitle, rainTrendTitle]),
    filter_ite_singleton_nil _ _ _ (by simp [depTrendTitle, healthTitle])]
  simp

lemma filter_rain_trendAlerts (score : WaterRecord → ℚ) (h : List WaterRecord)
    (hlen : 3 ≤ h.length) :
    (trendAlerts score h).filter
        (fun a => a.category == Category.trend && a.title == rainTrendTitle)
      = if 3 ≤ streakLoop rainDropStep 0 (sortCopyByYear h).1 then
          [⟨Severity.warning, Category.trend, rainTrendTitle,
            AlertValue.count (streakLoop rainDropStep 0 (sortCopyByYear h).1)⟩]
        else [] := by
  unfold trendAlerts
  rw [if_pos hlen]
  simp only [List.filter_append]
  rw [filter_ite_singleton_nil _ _ _ (by simp [riseTitle, rainTrendTitle]),
    filter_ite_singleton_nil _ _ _ (by simp [depTrendTitle, rainTrendTitle]),
    filter_ite_singleton_self _ _ _ (by simp),
    filter_ite_singleton_nil _ _ _ (by simp [rainTrendTitle, healthTitle])]
  simp

lemma filter_health_trendAlerts (score : WaterRecord → ℚ) (h : List WaterRecord)
    (hlen : 3 ≤ h.length) :
    (trendAlerts score h).filter
        (fun a => a.category == Category.trend && a.title == healthTitle)
      = if avg (secondHalfOf score h) < avg (firstHalfOf score h) - 10 then
          [⟨Severity.warning, Category.trend, healthTitle,
            AlertValue.int (jsRound (avg (secondHalfOf score h) - avg (firstHalfOf score h)))⟩]
        else [] := by
  unfold trendAlerts
  rw [if_pos hlen]
  simp only [List.filter_append]
  rw [filter_ite_singleton_nil _ _ _ (by simp [riseTitle, healthTitle]),
    filter_ite_singleton_nil _ _ _ (by simp [depTrendTitle, healthTitle]),
    filter_ite_singleton_nil _ _ _ (by simp [rainTrendTitle, healthTitle]),
    filter_ite_singleton_self _ _ _ (by simp)]
  simp only [List.nil_append, List.append_nil]
  rfl

lemma filter_rise_generateAlerts (score : WaterRecord → ℚ) (d : WaterRecord)
    (h : List WaterRecord) (hlen : 3 ≤ h.length) :
    (generateAlerts score d (some h)).filter
        (fun a => a.category == Category.trend && a.title == riseTitle)
      = if 3 ≤ streakLoop gwRiseStep 0 (sortCopyByYear h).1 then
          [⟨Severity.warning, Category.trend, riseTitle,
            AlertValue.count (streakLoop gwRiseStep 0 (sortCopyByYear h).1)⟩]
        else [] := by
  unfold generateAlerts
  rw [List.filter_append, filter_trend_thresholdAlerts d (fun a => a.title == riseTitle),
    filter_rise_trendAlerts score h hlen, List.nil_append]

lemma filter_dep_generateAlerts (score : WaterRecord → ℚ) (d : WaterRecord)
    (h : List WaterRecord) (hlen : 3 ≤ h.length) :
    (generateAlerts score d (some h)).filter
        (fun a => a.category == Category.trend && a.title == depTrendTitle)
      = if 3 ≤ streakLoop depRiseStep 0 (sortCopyByYear h).1 then
          [⟨Severity.critical, Category.trend, depTrendTitle,
            AlertValue.count (streakLoop depRiseStep 0 (sortCopyByYear h).1)⟩]
        else [] := by
  unfold generateAlerts
  rw [List.filter_append, filter_trend_thresholdAlerts d (fun a => a.title == depTrendTitle),
    filter_dep_trendAlerts score h hlen, List.nil_append]

lemma mem_trendPart {score : WaterRecord → ℚ} {oh : Option (List WaterRecord)} {a : Alert}
    (ha : a ∈ (match oh with
      | some h => trendAlerts score h
      | none => ([] : List Alert))) : a.category = Category.trend := by
  cases oh with
  | none => exact absurd ha (List.not_mem_nil a)
  | some h => exact mem_trendAlerts ha

lemma cat_beq_true {a : Alert} {γ : Category} (h : a.category = γ) :
    (a.category == γ) = true := by
  rw [h]; exact beq_self_eq_true γ

lemma cat_beq_false {a : Alert} {γ δ : Category} (h : a.category = γ) (hne : γ ≠ δ) :
    (a.category == δ) = false := by
  rw [h]; exact beq_eq_false_iff_ne.mpr hne

lemma filter_waterLevel_generateAlerts (score : WaterRecord → ℚ) (d : WaterRecord)
    (oh : Option (List WaterRecord)) :
    (generateAlerts score d oh).filter (fun a => a.category == Category.waterLevel)
      = waterLevelAlerts d := by
  unfold generateAlerts thresholdAlerts
  simp only [List.filter_append]
  rw [filter_true_of_mem (fun a ha => cat_beq_true (mem_waterLevelAlerts ha)),
    filter_false_of_mem (fun a ha => cat_beq_false (mem_depletionAlerts ha) (by decide)),
    filter_false_of_mem (fun a ha => cat_beq_false (mem_rainfallAlerts ha) (by decide)),
    filter_false_of_mem (fun a ha => cat_beq_false (mem_phAlerts ha) (by decide)),
    filter_false_of_mem (fun a ha => cat_beq_false (mem_consumptionAlerts ha) (by decide)),
    filter_false_of_mem (fun a ha => cat_beq_false (mem_scarcityAlerts ha) (by decide)),
    filter_false_of_mem (fun a ha => cat_beq_false (mem_trendPart ha) (by decide))]
  simp

lemma filter_depletion_generateAlerts (score : WaterRecord → ℚ) (d : WaterRecord)
    (oh : Option (List WaterRecord)) :
    (generateAlerts score d oh).filter (fun a => a.category == Category.depletion)
      = depletionAlerts d := by
  unfold generateAlerts thresholdAlerts
  simp only [List.filter_append]
  rw [filter_false_of_mem (fun a ha => cat_beq_false (mem_waterLevelAlerts ha) (by decide)),
    filter_true_of_mem (fun a ha => cat_beq_true (mem_depletionAlerts ha)),
    filter_false_of_mem (fun a ha => cat_beq_false (mem_rainfallAlerts ha) (by decide)),
    filter_false_of_mem (fun a ha => cat_beq_false (mem_phAlerts ha) (by decide)),
    filter_false_of_mem (fun a ha => cat_beq_false (mem_consumptionAlerts ha) (by decide)),
    filter_false_of_mem (fun a ha => cat_beq_false (mem_scarcityAlerts ha) (by decide)),
    filter_false_of_mem (fun a ha => cat_beq_false (mem_trendPart ha) (by decide))]
  simp

lemma filter_rainfall_generateAlerts (score : WaterRecord → ℚ) (d : WaterRecord)
    (oh : Option (List WaterRecord)) :
    (generateAlerts score d oh).filter (fun a => a.category == Category.rainfall)
      = rainfallAlerts d := by
  unfold generateAlerts thresholdAlerts
  simp only [List.filter_append]
  rw [filter_false_of_mem (fun a ha => cat_beq_false (mem_waterLevelAlerts ha) (by decide)),
    filter_false_of_mem (fun a ha => cat_beq_false (mem_depletionAlerts ha) (by decide)),
    filter_true_of_mem (fun a ha => cat_beq_true (mem_rainfallAlerts ha)),
    filter_false_of_mem (fun a ha => cat_beq_false (mem_phAlerts ha) (by decide)),
    filter_false_of_mem (fun a ha => cat_beq_false (mem_consumptionAlerts ha) (by decide)),
    filter_false_of_mem (fun a ha => cat_beq_false (mem_scarcityAlerts ha) (by decide)),
    filter_false_of_mem (fun a ha => cat_beq_false (mem_trendPart ha) (by decide))]
  simp

lemma filter_quality_generateAlerts (score : WaterRecord → ℚ) (d : WaterRecord)
    (oh : Option (List WaterRecord)) :
    (generateAlerts score d oh).filter (fun a => a.category == Category.waterQuality)
      = phAlerts d := by
  unfold generateAlerts thresholdAlerts
  simp only [List.filter_append]
  rw [filter_false_of_mem (fun a ha => cat_beq_false (mem_waterLevelAlerts ha) (by decide)),
    filter_false_of_mem (fun a ha => cat_beq_false (mem_depletionAlerts ha) (by decide)),
    filter_false_of_mem (fun a ha => cat_beq_false (mem_rainfallAlerts ha) (by decide)),
    filter_true_of_mem (fun a ha => cat_beq_true (mem_phAlerts ha)),
    filter_false_of_mem (fun a ha => cat_beq_false (mem_consumptionAlerts ha) (by decide)),
    filter_false_of_mem (fun a ha => cat_beq_false (mem_scarcityAlerts ha) (by decide)),
    filter_false_of_mem (fun a ha => cat_beq_false (mem_trendPart ha) (by decide))]
  simp

lemma filter_consumption_generateAlerts (score : WaterRecord → ℚ) (d : WaterRecord)
    (oh : Option (List WaterRecord)) :
    (generateAlerts score d oh).filter (fun a => a.category == Category.consumption)
      = consumptionAlerts d := by
  unfold generateAlerts thresholdAlerts
  simp only [List.filter_append]
  rw [filter_false_of_mem (fun a ha => cat_beq_false (mem_waterLevelAlerts ha) (by decide)),
    filter_false_of_mem (fun a ha => cat_beq_false (mem_depletionAlerts ha) (by decide)),
    filter_false_of_mem (fun a ha => cat_beq_false (mem_rainfallAlerts ha) (by decide)),
    filter_false_of_mem (fun a ha => cat_beq_false (mem_phAlerts ha) (by decide)),
    filter_true_of_mem (fun a ha => cat_beq_true (mem_consumptionAlerts ha)),
    filter_false_of_mem (fun a ha => cat_beq_false (mem_scarcityAlerts ha) (by decide)),
    filter_false_of_mem (fun a ha => cat_beq_false (mem_trendPart ha) (by decide))]
  simp

lemma filter_rain_generateAlerts (score : WaterRecord → ℚ) (d : WaterRecord)
    (h : List WaterRecord) (hlen : 3 ≤ h.length) :
    (generateAlerts score d (some h)).filter
        (fun a => a.category == Category.trend && a.title == rainTrendTitle)
      = if 3 ≤ streakLoop rainDropStep 0 (sortCopyByYear h).1 then
          [⟨Severity.warning, Category.trend, rainTrendTitle,
            AlertValue.count (streakLoop rainDropStep 0 (sortCopyByYear h).1)⟩]
        else [] := by
  unfold generateAlerts
  rw [List.filter_append, filter_trend_thresholdAlerts d (fun a => a.title == rainTrendTitle),
    filter_rain_trendAlerts score h hlen, List.nil_append]

/-! ## Claims -/

/-- C2: for every history of length ≥ 3, the "Sustained Water Level
Decline" trend alert is emitted exactly when the run of strictly increasing
`groundwaterLevel` steps ending at the last element of the year-sorted
history has length ≥ 3, and its `value` equals that trailing run length
(earlier runs are ignored; the counter resets on any non-increasing step). -/
theorem trend_waterLevel_trailing_run (score : WaterRecord → ℚ) (d : WaterRecord)
    (h : List WaterRecord) (hlen : 3 ≤ h.length) :
    (generateAlerts score d (some h)).filter
        (fun a => a.category == Category.trend && a.title == riseTitle)
      = if 3 ≤ trailingRun gwRiseStep (sortCopyByYear h).1 then
          [⟨Severity.warning, Category.trend, riseTitle,
            AlertValue.count (trailingRun gwRiseStep (sortCopyByYear h).1)⟩]
        else [] := by
  rw [filter_rise_generateAlerts score d h hlen, streakLoop_eq_trailingRun]

/-- Witness for C2 at a five-record history with strictly increasing
groundwater level: the alert is present with `value = 4`. -/
theorem trend_waterLevel_trailing_run_witness :
    3 ≤ hist5.length
  ∧ (generateAlerts (fun _ => 0) {} (some hist5)).filter
        (fun a => a.category == Category.trend && a.title == riseTitle)
      = [⟨Severity.warning, Category.trend, riseTitle, AlertValue.count 4⟩] := by
  constructor
  · decide
  · rw [trend_waterLevel_trailing_run (fun _ => 0) {} hist5 (by decide)]
    have hs : (sortCopyByYear hist5).1 = hist5 := List.mergeSort_of_sorted (by decide)
    rw [hs]
    decide

/-- C10: a history of fewer than 4 records can never produce any of the
three consecutive-streak trend alerts: with at most 3 records there are at
most 2 adjacent steps, so the trailing streak is at most 2 and the guard
requires at least 3. -/
theorem short_history_no_streak_alerts (score : WaterRecord → ℚ) (d : WaterRecord)
    (h : List WaterRecord) (hlen : h.length < 4) :
    ((generateAlerts score d (some h)).filter
        (fun a => a.category == Category.trend && a.title == riseTitle) = [])
  ∧ ((generateAlerts score d (some h)).filter
        (fun a => a.category == Category.trend && a.title == depTrendTitle) = [])
  ∧ ((generateAlerts score d (some h)).filter
        (fun a => a.category == Category.trend && a.title == rainTrendTitle) = []) := by
  by_cases h3 : 3 ≤ h.length
  · have hstreak : ∀ step : WaterRecord → WaterRecord → Bool,
        streakLoop step 0 (sortCopyByYear h).1 ≤ 2 := by
      intro step
      have hb := streakLoop_le step 0 (sortCopyByYear h).1
      have hl : (sortCopyByYear h).1.length = h.length := List.length_mergeSort h
      omega
    refine ⟨?_, ?_, ?_⟩
    · rw [filter_rise_generateAlerts score d h h3,
        if_neg (by have := hstreak gwRiseStep; omega)]
    · rw [filter_dep_generateAlerts score d h h3,
        if_neg (by have := hstreak depRiseStep; omega)]
    · rw [filter_rain_generateAlerts score d h h3,
        if_neg (by have := hstreak rainDropStep; omega)]
  · have htr : trendAlerts score h = [] := by
      unfold trendAlerts
      rw [if_neg h3]
    refine ⟨?_, ?_, ?_⟩ <;>
      · simp only [generateAlerts, htr, List.append_nil]
        exact filter_trend_thresholdAlerts d _

/-- Witness for C10 at a three-record history whose every step moves the
bad direction on all three metrics: still no streak alert. -/
theorem short_history_no_streak_alerts_witness :
    hist3.length < 4
  ∧ ((generateAlerts (fun _ => 0) {} (some hist3)).filter
        (fun a => a.category == Category.trend && a.title == riseTitle) = [])
  ∧ ((generateAlerts (fun _ => 0) {} (some hist3)).filter
        (fun a => a.category == Category.trend && a.title == depTrendTitle) = [])
  ∧ ((generateAlerts (fun _ => 0) {} (some hist3)).filter
        (fun a => a.category == Category.trend && a.title == rainTrendTitle) = []) :=
  ⟨by decide,
    (short_history_no_streak_alerts (fun _ => 0) {} hist3 (by decide)).1,
    (short_history_no_streak_alerts (fun _ => 0) {} hist3 (by decide)).2.1,
    (short_history_no_streak_alerts (fun _ => 0) {} hist3 (by decide)).2.2⟩

/-- C5 as stated is false: in a history of exactly 3 records whose every
adjacent groundwater-level step strictly increases, the scanner counts only
2 steps, below the ≥ 3 guard, so no "Sustained Water Level Decline" alert
is emitted. -/
theorem three_record_streak_counterexample :
    List.Chain' (fun a b => gwRiseStep a b = true) hist3
  ∧ hist3.length = 3
  ∧ (generateAlerts (fun _ => 0) {} (some hist3)).filter
        (fun a => a.category == Category.trend && a.title == riseTitle) = [] := by
  refine ⟨?_, by decide, ?_⟩
  · norm_num [hist3, List.chain'_cons, List.chain'_singleton, sampleRecord, gwRiseStep, jsGtO, toNum]
  rw [filter_rise_generateAlerts (fun _ => 0) {} hist3 (by decide)]
  have hs : (sortCopyByYear hist3).1 = hist3 := List.mergeSort_of_sorted (by decide)
  rw [hs, if_neg (by decide)]

/-- C5 (amended): four records is the minimal length at which an
all-bad-direction history fires a streak trend alert; for every 4-record
history whose every adjacent year-sorted step moves the bad direction for a
metric, the corresponding trend alert is emitted (with `value = 3`). -/
theorem four_record_full_streak_fires (score : WaterRecord → ℚ) (d : WaterRecord)
    (h : List WaterRecord) (hlen : h.length = 4) :
    (List.Chain' (fun a b => gwRiseStep a b = true) (sortCopyByYear h).1 →
      Alert.mk Severity.warning Category.trend riseTitle (AlertValue.count 3)
        ∈ generateAlerts score d (some h))
  ∧ (List.Chain' (fun a b => depRiseStep a b = true) (sortCopyByYear h).1 →
      Alert.mk Severity.critical Category.trend depTrendTitle (AlertValue.count 3)
        ∈ generateAlerts score d (some h))
  ∧ (List.Chain' (fun a b => rainDropStep a b = true) (sortCopyByYear h).1 →
      Alert.mk Severity.warning Category.trend rainTrendTitle (AlertValue.count 3)
        ∈ generateAlerts score d (some h)) := by
  have hsl : (sortCopyByYear h).1.length = 4 := (List.length_mergeSort h).trans hlen
  have hlen3 : 3 ≤ h.length := by omega
  refine ⟨fun hch => ?_, fun hch => ?_, fun hch => ?_⟩
  · have hstreak : streakLoop gwRiseStep 0 (sortCopyByYear h).1 = 3 := by
      rw [streakLoop_of_chain gwRiseStep 0 _ hch, hsl]
    have hfil := filter_rise_generateAlerts score d h hlen3
    rw [hstreak, if_pos (by omega)] at hfil
    exact List.mem_of_mem_filter (hfil ▸ List.mem_singleton_self _)
  · have hstreak : streakLoop depRiseStep 0 (sortCopyByYear h).1 = 3 := by
      rw [streakLoop_of_chain depRiseStep 0 _ hch, hsl]
    have hfil := filter_dep_generateAlerts score d h hlen3
    rw [hstreak, if_pos (by omega)] at hfil
    exact List.mem_of_mem_filter (hfil ▸ List.mem_singleton_self _)
  · have hstreak : streakLoop rainDropStep 0 (sortCopyByYear h).1 = 3 := by
      rw [streakLoop_of_chain rainDropStep 0 _ hch, hsl]
    have hfil := filter_rain_generateAlerts score d h hlen3
    rw [hstreak, if_pos (by omega)] at hfil
    exact List.mem_of_mem_filter (hfil ▸ List.mem_singleton_self _)

/-- Witness for the amended C5 at a concrete 4-record history that moves
the bad direction on all three metrics every year. -/
theorem four_record_full_streak_fires_witness :
    hist4.length = 4
  ∧ Alert.mk Severity.warning Category.trend riseTitle (AlertValue.count 3)
      ∈ generateAlerts (fun _ => 0) {} (some hist4)
  ∧ Alert.mk Severity.critical Category.trend depTrendTitle (AlertValue.count 3)
      ∈ generateAlerts (fun _ => 0) {} (some hist4)
  ∧ Alert.mk Severity.warning Category.trend rainTrendTitle (AlertValue.count 3)
      ∈ generateAlerts (fun _ => 0) {} (some hist4) :=
  have hs : (sortCopyByYear hist4).1 = hist4 := List.mergeSort_of_sorted (by decide)
  ⟨by decide,
    (four_record_full_streak_fires (fun _ => 0) {} hist4 (by decide)).1
      (by rw [hs]
          norm_num [hist4, List.chain'_cons, List.chain'_singleton, sampleRecord,
            gwRiseStep, jsGtO, toNum]),
    (four_record_full_streak_fires (fun _ => 0) {} hist4 (by decide)).2.1
      (by rw [hs]
          norm_num [hist4, List.chain'_cons, List.chain'_singleton, sampleRecord,
            depRiseStep, jsGtO, toNum]),
    (four_record_full_streak_fires (fun _ => 0) {} hist4 (by decide)).2.2
      (by rw [hs]
          norm_num [hist4, List.chain'_cons, List.chain'_singleton, sampleRecord,
            rainDropStep, jsLtO, toNum])⟩

/-- C4: for every history of length ≥ 3 the health-decline check splits the
per-record score sequence with `floor(n/2)` elements in the first half and
the remainder (including the middle element for odd `n`) in the second, and
the "Overall Water Health Declining" warning is emitted exactly when
`mean(secondHalf) < mean(firstHalf) - 10` (strictly), with `value` the
JS-rounded difference `mean(secondHalf) - mean(firstHalf)`. -/
theorem health_decline_split_mean (score : WaterRecord → ℚ) (d : WaterRecord)
    (h : List WaterRecord) (hlen : 3 ≤ h.length) :
    (firstHalfOf score h).length = h.length / 2
  ∧ (secondHalfOf score h).length = h.length - h.length / 2
  ∧ ((generateAlerts score d (some h)).filter
        (fun a => a.category == Category.trend && a.title == healthTitle)
      = if avg (secondHalfOf score h) < avg (firstHalfOf score h) - 10 then
          [⟨Severity.warning, Category.trend, healthTitle,
            AlertValue.int (jsRound (avg (secondHalfOf score h) - avg (firstHalfOf score h)))⟩]
        else []) := by
  have hn : (scoresOf score h).length = h.length := by
    unfold scoresOf
    rw [List.length_map]
    exact List.length_mergeSort h
  refine ⟨?_, ?_, ?_⟩
  · unfold firstHalfOf
    rw [List.length_take, hn, Nat.min_eq_left (Nat.div_le_self _ _)]
  · unfold secondHalfOf
    rw [List.length_drop, hn]
  · unfold generateAlerts
    rw [List.filter_append, filter_trend_thresholdAlerts d (fun a => a.title == healthTitle),
      filter_health_trendAlerts score h hlen, List.nil_append]

/-- Witness for C4 on a 4-record history: synthetic split-half means 80 and
65 (difference −15) fire the alert with `value = -15`; means 75 and 65
(difference exactly −10) do not fire it. -/
theorem health_decline_split_mean_witness :
    3 ≤ hist4.length
  ∧ ((generateAlerts scoreStep80 {} (some hist4)).filter
        (fun a => a.category == Category.trend && a.title == healthTitle)
      = [⟨Severity.warning, Category.trend, healthTitle, AlertValue.int (-15)⟩])
  ∧ ((generateAlerts scoreStep75 {} (some hist4)).filter
        (fun a => a.category == Category.trend && a.title == healthTitle)
      = []) := by
  have hs : (sortCopyByYear hist4).1 = hist4 := List.mergeSort_of_sorted (by decide)
  refine ⟨by decide, ?_, ?_⟩
  · rw [(health_decline_split_mean scoreStep80 {} hist4 (by decide)).2.2]
    have h1 : firstHalfOf scoreStep80 hist4 = [80, 80] := by
      unfold firstHalfOf scoresOf
      rw [hs]
      rfl
    have h2 : secondHalfOf scoreStep80 hist4 = [65, 65] := by
      unfold secondHalfOf scoresOf
      rw [hs]
      rfl
    have ha1 : avg [(80 : ℚ), 80] = 80 := by
      unfold avg
      norm_num
    have ha2 : avg [(65 : ℚ), 65] = 65 := by
      unfold avg
      norm_num
    have hr : jsRound ((65 : ℚ) - 80) = -15 := by
      unfold jsRound
      rw [Int.floor_eq_iff]
      norm_num
    rw [h1, h2, ha1, ha2, if_pos (by norm_num), hr]
  · rw [(health_decline_split_mean scoreStep75 {} hist4 (by decide)).2.2]
    have h1 : firstHalfOf scoreStep75 hist4 = [75, 75] := by
      unfold firstHalfOf scoresOf
      rw [hs]
      rfl
    have h2 : secondHalfOf scoreStep75 hist4 = [65, 65] := by
      unfold secondHalfOf scoresOf
      rw [hs]
      rfl
    have ha1 : avg [(75 : ℚ), 75] = 75 := by
      unfold avg
      norm_num
    have ha2 : avg [(65 : ℚ), 65] = 65 := by
      unfold avg
      norm_num
    rw [h1, h2, ha1, ha2, if_neg (by norm_num)]

/-- C3: for every record with defined `groundwaterLevel = v`, the output
contains exactly one Water Level alert, critical when `v ≥ 15`, warning
when `12 ≤ v < 15`, and none when `v < 12`; both boundaries inclusive. -/
theorem waterLevel_alert_cases (score : WaterRecord → ℚ) (d : WaterRecord)
    (oh : Option (List WaterRecord)) (v : ℚ) (hv : d.groundwaterLevel = JSNum.num v) :
    (15 ≤ v →
      (generateAlerts score d oh).filter (fun a => a.category == Category.waterLevel)
        = [⟨Severity.critical, Category.waterLevel, "🚨 Critical Water Level",
            AlertValue.num v⟩])
  ∧ (12 ≤ v → v < 15 →
      (generateAlerts score d oh).filter (fun a => a.category == Category.waterLevel)
        = [⟨Severity.warning, Category.waterLevel, "⚠️ Low Water Table",
            AlertValue.num v⟩])
  ∧ (v < 12 →
      (generateAlerts score d oh).filter (fun a => a.category == Category.waterLevel)
        = []) := by
  rw [filter_waterLevel_generateAlerts score d oh]
  refine ⟨fun h15 => ?_, fun h12 h15 => ?_, fun h12 => ?_⟩
  · simp only [waterLevelAlerts, hv, jsGe, toNum, ALERT_THRESHOLDS, valNum,
      decide_eq_true_eq]
    rw [if_pos h15]
  · simp only [waterLevelAlerts, hv, jsGe, toNum, ALERT_THRESHOLDS, valNum,
      decide_eq_true_eq]
    rw [if_neg (not_le.mpr h15), if_pos h12]
  · simp only [waterLevelAlerts, hv, jsGe, toNum, ALERT_THRESHOLDS, valNum,
      decide_eq_true_eq]
    rw [if_neg (not_le.mpr (lt_of_lt_of_le h12 (by norm_num))),
      if_neg (not_le.mpr h12)]

/-- Witness for C3 at the inclusive boundaries: depth 15 gives the single
critical alert, depth 12 the single warning, depth 11.5 none. -/
theorem waterLevel_alert_cases_witness :
    ((generateAlerts (fun _ => 0) { groundwaterLevel := JSNum.num 15 } none).filter
        (fun a => a.category == Category.waterLevel)
      = [⟨Severity.critical, Category.waterLevel, "🚨 Critical Water Level",
          AlertValue.num 15⟩])
  ∧ ((generateAlerts (fun _ => 0) { groundwaterLevel := JSNum.num 12 } none).filter
        (fun a => a.category == Category.waterLevel)
      = [⟨Severity.warning, Category.waterLevel, "⚠️ Low Water Table",
          AlertValue.num 12⟩])
  ∧ ((generateAlerts (fun _ => 0) { groundwaterLevel := JSNum.num (23/2) } none).filter
        (fun a => a.category == Category.waterLevel)
      = []) :=
  ⟨(waterLevel_alert_cases (fun _ => 0) { groundwaterLevel := JSNum.num 15 } none 15 rfl).1
      (by norm_num),
    (waterLevel_alert_cases (fun _ => 0) { groundwaterLevel := JSNum.num 12 } none 12 rfl).2.1
      (by norm_num) (by norm_num),
    (waterLevel_alert_cases (fun _ => 0) { groundwaterLevel := JSNum.num (23/2) } none (23/2)
        rfl).2.2 (by norm_num)⟩

/-- C1 as stated is false for `null` fields: JS coerces `null` to 0 in
relational comparisons, so a record whose five numeric fields are all
`null` still fires the critical Rainfall alert (`null <= 600` is true at
line 79) and the pH warning (`null <= 6.5` is true at line 104), and
blanking `rainfall` from 800 to `null` adds a critical alert the original
record did not have. -/
theorem null_coercion_counterexample :
    ((generateAlerts (fun _ => 0)
        { groundwaterLevel := JSNum.null, depletionRate := JSNum.null,
          rainfall := JSNum.null, ph := JSNum.null, consumption := JSNum.null } none).filter
        (fun a => a.category == Category.rainfall)
      = [⟨Severity.critical, Category.rainfall, "🚨 Drought Risk", AlertValue.null⟩])
  ∧ ((generateAlerts (fun _ => 0)
        { groundwaterLevel := JSNum.null, depletionRate := JSNum.null,
          rainfall := JSNum.null, ph := JSNum.null, consumption := JSNum.null } none).filter
        (fun a => a.category == Category.waterQuality)
      = [⟨Severity.warning, Category.waterQuality, "⚠️ pH Imbalance", AlertValue.null⟩])
  ∧ ((generateAlerts (fun _ => 0) { rainfall := JSNum.num 800 } none).filter
        (fun a => a.category == Category.rainfall) = [])
  ∧ ((generateAlerts (fun _ => 0) { rainfall := JSNum.null } none).filter
        (fun a => a.category == Category.rainfall)
      = [⟨Severity.critical, Category.rainfall, "🚨 Drought Risk", AlertValue.null⟩]) := by
  refine ⟨?_, ?_, ?_, ?_⟩
  · rw [filter_rainfall_generateAlerts]
    norm_num [rainfallAlerts, jsLe, toNum, ALERT_THRESHOLDS, valNum]
  · rw [filter_quality_generateAlerts]
    norm_num [phAlerts, jsGe, jsLe, toNum, ALERT_THRESHOLDS, valNum]
  · rw [filter_rainfall_generateAlerts]
    norm_num [rainfallAlerts, jsLe, toNum, ALERT_THRESHOLDS]
  · rw [filter_rainfall_generateAlerts]
    norm_num [rainfallAlerts, jsLe, toNum, ALERT_THRESHOLDS, valNum]

/-- C1 (amended): restricted to `undefined` fields — a `null` field instead
coerces to 0 and can fire the Rainfall and pH alerts, see the
counterexample.  An `undefined` numeric field never fires its alert and
never adds any other: each undefined field (`groundwaterLevel`,
`depletionRate`, `rainfall`, `ph`, `consumption`) yields no alert of its
category; with all five undefined only the categorical scarcity check (and
trend scan) can still fire; and blanking any one field to `undefined`
produces exactly the original output minus that field's category (the
evaluator is total, so no exception is possible). -/
theorem alerts_missing_fields (score : WaterRecord → ℚ) (d : WaterRecord)
    (oh : Option (List WaterRecord)) :
    (d.groundwaterLevel = JSNum.undefined →
      (generateAlerts score d oh).filter (fun a => a.category == Category.waterLevel) = [])
  ∧ (d.depletionRate = JSNum.undefined →
      (generateAlerts score d oh).filter (fun a => a.category == Category.depletion) = [])
  ∧ (d.rainfall = JSNum.undefined →
      (generateAlerts score d oh).filter (fun a => a.category == Category.rainfall) = [])
  ∧ (d.ph = JSNum.undefined →
      (generateAlerts score d oh).filter (fun a => a.category == Category.waterQuality) = [])
  ∧ (d.consumption = JSNum.undefined →
      (generateAlerts score d oh).filter (fun a => a.category == Category.consumption) = [])
  ∧ (d.groundwaterLevel = JSNum.undefined → d.depletionRate = JSNum.undefined →
      d.rainfall = JSNum.undefined → d.ph = JSNum.undefined →
      d.consumption = JSNum.undefined →
      (generateAlerts score d oh).filter
        (fun a => !(a.category == Category.scarcity) && !(a.category == Category.trend)) = [])
  ∧ (generateAlerts score { d with groundwaterLevel := JSNum.undefined } oh
      = (generateAlerts score d oh).filter (fun a => !(a.category == Category.waterLevel)))
  ∧ (generateAlerts score { d with depletionRate := JSNum.undefined } oh
      = (generateAlerts score d oh).filter (fun a => !(a.category == Category.depletion)))
  ∧ (generateAlerts score { d with rainfall := JSNum.undefined } oh
      = (generateAlerts score d oh).filter (fun a => !(a.category == Category.rainfall)))
  ∧ (generateAlerts score { d with ph := JSNum.undefined } oh
      = (generateAlerts score d oh).filter (fun a => !(a.category == Category.waterQuality)))
  ∧ (generateAlerts score { d with consumption := JSNum.undefined } oh
      = (generateAlerts score d oh).filter (fun a => !(a.category == Category.consumption))) := by
  refine ⟨?_, ?_, ?_, ?_, ?_, ?_, ?_, ?_, ?_, ?_, ?_⟩
  · intro hgw
    rw [filter_waterLevel_generateAlerts score d oh]
    simp [waterLevelAlerts, hgw, jsGe, toNum]
  · intro hdep
    rw [filter_depletion_generateAlerts score d oh]
    simp [depletionAlerts, hdep, jsGe, toNum]
  · intro hrain
    rw [filter_rainfall_generateAlerts score d oh]
    simp [rainfallAlerts, hrain, jsLe, toNum]
  · intro hph
    rw [filter_quality_generateAlerts score d oh]
    simp [phAlerts, hph, jsGe, jsLe, toNum]
  · intro hcons
    rw [filter_consumption_generateAlerts score d oh]
    simp [consumptionAlerts, hcons, jsGe, toNum]
  · intro h1 h2 h3 h4 h5
    have hw : waterLevelAlerts d = [] := by simp [waterLevelAlerts, h1, jsGe, toNum]
    have hd : depletionAlerts d = [] := by simp [depletionAlerts, h2, jsGe, toNum]
    have hr : rainfallAlerts d = [] := by simp [rainfallAlerts, h3, jsLe, toNum]
    have hp : phAlerts d = [] := by simp [phAlerts, h4, jsGe, jsLe, toNum]
    have hc : consumptionAlerts d = [] := by simp [consumptionAlerts, h5, jsGe, toNum]
    have h6 : (scarcityAlerts d).filter
        (fun a => !(a.category == Category.scarcity) && !(a.category == Category.trend))
          = [] :=
      filter_false_of_mem (fun a ha => by simp [mem_scarcityAlerts ha])
    have h7 : ((match oh with
        | some hh => trendAlerts score hh
        | none => ([] : List Alert)).filter
          (fun (a : Alert) => !(a.category == Category.scarcity) && !(a.category == Category.trend)))
          = [] :=
      filter_false_of_mem (fun a ha => by simp [mem_trendPart ha])
    simp only [generateAlerts, thresholdAlerts, hw, hd, hr, hp, hc, List.nil_append,
      List.filter_append, h6, h7, List.append_nil]
  · have hwl : waterLevelAlerts { d with groundwaterLevel := JSNum.undefined } = [] := by
      simp [waterLevelAlerts, jsGe, toNum]
    have f1 : (waterLevelAlerts d).filter (fun a => !(a.category == Category.waterLevel))
        = [] :=
      filter_false_of_mem (fun a ha => by simp [mem_waterLevelAlerts ha])
    have f2 : (depletionAlerts d).filter (fun a => !(a.category == Category.waterLevel))
        = depletionAlerts d :=
      filter_true_of_mem (fun a ha => by simp [mem_depletionAlerts ha])
    have f3 : (rainfallAlerts d).filter (fun a => !(a.category == Category.waterLevel))
        = rainfallAlerts d :=
      filter_true_of_mem (fun a ha => by simp [mem_rainfallAlerts ha])
    have f4 : (phAlerts d).filter (fun a => !(a.category == Category.waterLevel))
        = phAlerts d :=
      filter_true_of_mem (fun a ha => by simp [mem_phAlerts ha])
    have f5 : (consumptionAlerts d).filter (fun a => !(a.category == Category.waterLevel))
        = consumptionAlerts d :=
      filter_true_of_mem (fun a ha => by simp [mem_consumptionAlerts ha])
    have f6 : (scarcityAlerts d).filter (fun a => !(a.category == Category.waterLevel))
        = scarcityAlerts d :=
      filter_true_of_mem (fun a ha => by simp [mem_scarcityAlerts ha])
    have f7 : ((match oh with
        | some hh => trendAlerts score hh
        | none => ([] : List Alert)).filter (fun (a : Alert) => !(a.category == Category.waterLevel)))
        = (match oh with
        | some hh => trendAlerts score hh
        | none => ([] : List Alert)) :=
      filter_true_of_mem (fun a ha => by simp [mem_trendPart ha])
    simp only [generateAlerts, thresholdAlerts, hwl, List.nil_append, List.filter_append,
      f1, f2, f3, f4, f5, f6, f7]
    rfl
  · have hdl : depletionAlerts { d with depletionRate := JSNum.undefined } = [] := by
      simp [depletionAlerts, jsGe, toNum]
    have f1 : (waterLevelAlerts d).filter (fun a => !(a.category == Category.depletion))
        = waterLevelAlerts d :=
      filter_true_of_mem (fun a ha => by simp [mem_waterLevelAlerts ha])
    have f2 : (depletionAlerts d).filter (fun a => !(a.category == Category.depletion))
        = [] :=
      filter_false_of_mem (fun a ha => by simp [mem_depletionAlerts ha])
    have f3 : (rainfallAlerts d).filter (fun a => !(a.category == Category.depletion))
        = rainfallAlerts d :=
      filter_true_of_mem (fun a ha => by simp [mem_rainfallAlerts ha])
    have f4 : (phAlerts d).filter (fun a => !(a.category == Category.depletion))
        = phAlerts d :=
      filter_true_of_mem (fun a ha => by simp [mem_phAlerts ha])
    have f5 : (consumptionAlerts d).filter (fun a => !(a.category == Category.depletion))
        = consumptionAlerts d :=
      filter_true_of_mem (fun a ha => by simp [mem_consumptionAlerts ha])
    have f6 : (scarcityAlerts d).filter (fun a => !(a.category == Category.depletion))
        = scarcityAlerts d :=
      filter_true_of_mem (fun a ha => by simp [mem_scarcityAlerts ha])
    have f7 : ((match oh with
        | some hh => trendAlerts score hh
        | none => ([] : List Alert)).filter (fun (a : Alert) => !(a.category == Category.depletion)))
        = (match oh with
        | some hh => trendAlerts score hh
        | none => ([] : List Alert)) :=
      filter_true_of_mem (fun a ha => by simp [mem_trendPart ha])
    simp only [generateAlerts, thresholdAlerts, hdl, List.nil_append, List.append_nil,
      List.filter_append, f1, f2, f3, f4, f5, f6, f7]
    rfl
  · have hrl : rainfallAlerts { d with rainfall := JSNum.undefined } = [] := by
      simp [rainfallAlerts, jsLe, toNum]
    have f1 : (waterLevelAlerts d).filter (fun a => !(a.category == Category.rainfall))
        = waterLevelAlerts d :=
      filter_true_of_mem (fun a ha => by simp [mem_waterLevelAlerts ha])
    have f2 : (depletionAlerts d).filter (fun a => !(a.category == Category.rainfall))
        = depletionAlerts d :=
      filter_true_of_mem (fun a ha => by simp [mem_depletionAlerts ha])
    have f3 : (rainfallAlerts d).filter (fun a => !(a.category == Category.rainfall))
        = [] :=
      filter_false_of_mem (fun a ha => by simp [mem_rainfallAlerts ha])
    have f4 : (phAlerts d).filter (fun a => !(a.category == Category.rainfall))
        = phAlerts d :=
      filter_true_of_mem (fun a ha => by simp [mem_phAlerts ha])
    have f5 : (consumptionAlerts d).filter (fun a => !(a.category == Category.rainfall))
        = consumptionAlerts d :=
      filter_true_of_mem (fun a ha => by simp [mem_consumptionAlerts ha])
    have f6 : (scarcityAlerts d).filter (fun a => !(a.category == Category.rainfall))
        = scarcityAlerts d :=
      filter_true_of_mem (fun a ha => by simp [mem_scarcityAlerts ha])
    have f7 : ((match oh with
        | some hh => trendAlerts score hh
        | none => ([] : List Alert)).filter (fun (a : Alert) => !(a.category == Category.rainfall)))
        = (match oh with
        | some hh => trendAlerts score hh
        | none => ([] : List Alert)) :=
      filter_true_of_mem (fun a ha => by simp [mem_trendPart ha])
    simp only [generateAlerts, thresholdAlerts, hrl, List.nil_append, List.append_nil,
      List.filter_append, f1, f2, f3, f4, f5, f6, f7]
    rfl
  · have hpl : phAlerts { d with ph := JSNum.undefined } = [] := by
      simp [phAlerts, jsGe, jsLe, toNum]
    have f1 : (waterLevelAlerts d).filter (fun a => !(a.category == Category.waterQuality))
        = waterLevelAlerts d :=
      filter_true_of_mem (fun a ha => by simp [mem_waterLevelAlerts ha])
    have f2 : (depletionAlerts d).filter (fun a => !(a.category == Category.waterQuality))
        = depletionAlerts d :=
      filter_true_of_mem (fun a ha => by simp [mem_depletionAlerts ha])
    have f3 : (rainfallAlerts d).filter (fun a => !(a.category == Category.waterQuality))
        = rainfallAlerts d :=
      filter_true_of_mem (fun a ha => by simp [mem_rainfallAlerts ha])
    have f4 : (phAlerts d).filter (fun a => !(a.category == Category.waterQuality))
        = [] :=
      filter_false_of_mem (fun a ha => by simp [mem_phAlerts ha])
    have f5 : (consumptionAlerts d).filter (fun a => !(a.category == Category.waterQuality))
        = consumptionAlerts d :=
      filter_true_of_mem (fun a ha => by simp [mem_consumptionAlerts ha])
    have f6 : (scarcityAlerts d).filter (fun a => !(a.category == Category.waterQuality))
        = scarcityAlerts d :=
      filter_true_of_mem (fun a ha => by simp [mem_scarcityAlerts ha])
    have f7 : ((match oh with
        | some hh => trendAlerts score hh
        | none => ([] : List Alert)).filter (fun (a : Alert) => !(a.category == Category.waterQuality)))
        = (match oh with
        | some hh => trendAlerts score hh
        | none => ([] : List Alert)) :=
      filter_true_of_mem (fun a ha => by simp [mem_trendPart ha])
    simp only [generateAlerts, thresholdAlerts, hpl, List.nil_append, List.append_nil,
      List.filter_append, f1, f2, f3, f4, f5, f6, f7]
    rfl
  · have hcl : consumptionAlerts { d with consumption := JSNum.undefined } = [] := by
      simp [consumptionAlerts, jsGe, toNum]
    have f1 : (waterLevelAlerts d).filter (fun a => !(a.category == Category.consumption))
        = waterLevelAlerts d :=
      filter_true_of_mem (fun a ha => by simp [mem_waterLevelAlerts ha])
    have f2 : (depletionAlerts d).filter (fun a => !(a.category == Category.consumption))
        = depletionAlerts d :=
      filter_true_of_mem (fun a ha => by simp [mem_depletionAlerts ha])
    have f3 : (rainfallAlerts d).filter (fun a => !(a.category == Category.consumption))
        = rainfallAlerts d :=
      filter_true_of_mem (fun a ha => by simp [mem_rainfallAlerts ha])
    have f4 : (phAlerts d).filter (fun a => !(a.category == Category.consumption))
        = phAlerts d :=
      filter_true_of_mem (fun a ha => by simp [mem_phAlerts ha])
    have f5 : (consumptionAlerts d).filter (fun a => !(a.category == Category.consumption))
        = [] :=
      filter_false_of_mem (fun a ha => by simp [mem_consumptionAlerts ha])
    have f6 : (scarcityAlerts d).filter (fun a => !(a.category == Category.consumption))
        = scarcityAlerts d :=
      filter_true_of_mem (fun a ha => by simp [mem_scarcityAlerts ha])
    have f7 : ((match oh with
        | some hh => trendAlerts score hh
        | none => ([] : List Alert)).filter (fun (a : Alert) => !(a.category == Category.consumption)))
        = (match oh with
        | some hh => trendAlerts score hh
        | none => ([] : List Alert)) :=
      filter_true_of_mem (fun a ha => by simp [mem_trendPart ha])
    simp only [generateAlerts, thresholdAlerts, hcl, List.nil_append, List.append_nil,
      List.filter_append, f1, f2, f3, f4, f5, f6, f7]
    rfl

/-- Witness for the amended C1 at a record with every field `undefined`:
no category fires. -/
theorem alerts_missing_fields_witness :
    ((generateAlerts (fun _ => 0) {} none).filter
        (fun a => a.category == Category.waterLevel) = [])
  ∧ ((generateAlerts (fun _ => 0) {} none).filter
        (fun a => !(a.category == Category.scarcity) && !(a.category == Category.trend))
      = []) :=
  ⟨(alerts_missing_fields (fun _ => 0) {} none).1 rfl,
    (alerts_missing_fields (fun _ => 0) {} none).2.2.2.2.2.1 rfl rfl rfl rfl rfl⟩

lemma map_cat_sublist {l : List Alert} {γ : Category} (hcat : ∀ a ∈ l, a.category = γ)
    (hlen : l.length ≤ 1) : List.Sublist (l.map (fun a => a.category)) [γ] := by
  cases l with
  | nil => exact List.nil_sublist _
  | cons a t =>
    cases t with
    | nil =>
      rw [List.map_cons, List.map_nil, hcat a (List.mem_singleton_self a)]
    | cons b t2 => simp at hlen

lemma len_waterLevelAlerts (d : WaterRecord) : (waterLevelAlerts d).length ≤ 1 := by
  unfold waterLevelAlerts
  split
  · simp
  · split <;> simp

lemma len_depletionAlerts (d : WaterRecord) : (depletionAlerts d).length ≤ 1 := by
  unfold depletionAlerts
  split
  · simp
  · split <;> simp

lemma len_rainfallAlerts (d : WaterRecord) : (rainfallAlerts d).length ≤ 1 := by
  unfold rainfallAlerts
  split
  · simp
  · split <;> simp

lemma len_phAlerts (d : WaterRecord) : (phAlerts d).length ≤ 1 := by
  unfold phAlerts
  split <;> simp

lemma len_consumptionAlerts (d : WaterRecord) : (consumptionAlerts d).length ≤ 1 := by
  unfold consumptionAlerts
  split <;> simp

lemma len_scarcityAlerts (d : WaterRecord) : (scarcityAlerts d).length ≤ 1 := by
  unfold scarcityAlerts
  split <;> simp

lemma trendAlerts_map_sublist (score : WaterRecord → ℚ) (h : List WaterRecord) :
    List.Sublist ((trendAlerts score h).map (fun a => a.category))
      [Category.trend, Category.trend, Category.trend, Category.trend] := by
  unfold trendAlerts
  split
  · simp only [List.map_append]
    show List.Sublist _
      ((([Category.trend] ++ [Category.trend]) ++ [Category.trend]) ++ [Category.trend])
    refine List.Sublist.append (List.Sublist.append (List.Sublist.append ?_ ?_) ?_) ?_ <;>
      · split
        · rw [List.map_cons, List.map_nil]
        · exact List.nil_sublist _
  · simp

/-- C6: the alert list is always ordered by the fixed category sequence
Water Level, Depletion, Rainfall, Water Quality, Consumption, Scarcity,
with the (up to four) Trend alerts appended after all threshold alerts:
its category image is a sublist of the fixed pattern.  The embedding is a
pure function, so repeated calls with identical input give the identical
list. -/
theorem alert_category_order (score : WaterRecord → ℚ) (d : WaterRecord)
    (oh : Option (List WaterRecord)) :
    List.Sublist ((generateAlerts score d oh).map (fun a => a.category))
      [Category.waterLevel, Category.depletion, Category.rainfall, Category.waterQuality,
        Category.consumption, Category.scarcity, Category.trend, Category.trend,
        Category.trend, Category.trend] := by
  unfold generateAlerts thresholdAlerts
  simp only [List.map_append]
  show List.Sublist _
    ((((((([Category.waterLevel] ++ [Category.depletion]) ++ [Category.rainfall]) ++
      [Category.waterQuality]) ++ [Category.consumption]) ++ [Category.scarcity])) ++
      [Category.trend, Category.trend, Category.trend, Category.trend])
  refine List.Sublist.append (List.Sublist.append (List.Sublist.append
    (List.Sublist.append (List.Sublist.append (List.Sublist.append ?_ ?_) ?_) ?_) ?_) ?_) ?_
  · exact map_cat_sublist (fun a ha => mem_waterLevelAlerts ha) (len_waterLevelAlerts d)
  · exact map_cat_sublist (fun a ha => mem_depletionAlerts ha) (len_depletionAlerts d)
  · exact map_cat_sublist (fun a ha => mem_rainfallAlerts ha) (len_rainfallAlerts d)
  · exact map_cat_sublist (fun a ha => mem_phAlerts ha) (len_phAlerts d)
  · exact map_cat_sublist (fun a ha => mem_consumptionAlerts ha) (len_consumptionAlerts d)
  · exact map_cat_sublist (fun a ha => mem_scarcityAlerts ha) (len_scarcityAlerts d)
  · cases oh with
    | none => exact List.nil_sublist _
    | some hh => exact trendAlerts_map_sublist score hh

/-- C7 as stated is false at the empty input: `generateGovUpdates([])`
returns the empty list, not five updates. -/
theorem govUpdates_empty_counterexample :
    generateGovUpdates [] = []
  ∧ ¬((generateGovUpdates []).map (fun u => u.id) = [1, 2, 3, 4, 5]) :=
  ⟨rfl, by decide⟩

/-- C7 (amended): for every nonempty input, the generator returns exactly
five updates with ids 1 through 5 in order, regardless of the latest
record's field values. -/
theorem govUpdates_five_ids (l : List WaterRecord) (hne : l ≠ []) :
    (generateGovUpdates l).map (fun u => u.id) = [1, 2, 3, 4, 5] := by
  unfold generateGovUpdates
  cases hlast : l.getLast? with
  | none => exact absurd (List.getLast?_eq_none_iff.mp hlast) hne
  | some latest => rfl

/-- Witness for the amended C7 at a concrete singleton history. -/
theorem govUpdates_five_ids_witness :
    (generateGovUpdates [sampleRecord 1 10 1 900]).map (fun u => u.id) = [1, 2, 3, 4, 5] :=
  govUpdates_five_ids [sampleRecord 1 10 1 900] (by simp)

/-- C8 as stated is false: with `scarcityLevel = 'High'` the id-1
Groundwater Status Report keeps priority `normal` (its check accepts only
Severe/Extreme), and with `'Extreme'` the id-5 Jal Shakti Advisory keeps
priority `normal` (its check accepts only High/Severe). -/
theorem govUpdates_high_scarcity_counterexample :
    ((generateGovUpdates [{ scarcityLevel := some "High", rainfall := JSNum.num 800 }]).map
        (fun u => (u.id, u.priority))
      = [(1, Priority.normal), (2, Priority.normal), (3, Priority.normal),
          (4, Priority.normal), (5, Priority.high)])
  ∧ ((generateGovUpdates [{ scarcityLevel := some "Extreme", rainfall := JSNum.num 800 }]).map
        (fun u => (u.id, u.priority))
      = [(1, Priority.high), (2, Priority.normal), (3, Priority.normal),
          (4, Priority.normal), (5, Priority.normal)]) := by
  constructor <;> decide

lemma ite_priority_iff (c : Prop) [Decidable c] :
    ((if c then Priority.high else Priority.normal) = Priority.high) ↔ c := by
  split
  · exact iff_of_true rfl (by assumption)
  · exact iff_of_false (by simp) (by assumption)

lemma jsLt_eq_true_iff (x : JSNum) (c : ℚ) :
    jsLt x c = true ↔ ∃ v, toNum x = some v ∧ v < c := by
  cases x <;> simp [jsLt, toNum]

/-- C8 (amended): in the five generated updates, the id-1 report has
priority `high` exactly when `scarcityLevel` is Severe or Extreme, the id-2
rainfall update exactly when `rainfall < 700`, the id-5 advisory exactly
when `scarcityLevel` is High or Severe, and ids 3 and 4 are always
`normal`. -/
theorem govUpdates_priorities (latest : WaterRecord) :
    ∃ u1 u2 u3 u4 u5 : GovUpdate,
      govUpdatesFor latest = [u1, u2, u3, u4, u5]
      ∧ u1.id = 1 ∧ u2.id = 2 ∧ u3.id = 3 ∧ u4.id = 4 ∧ u5.id = 5
      ∧ (u1.priority = Priority.high ↔
          (latest.scarcityLevel = some "Severe" ∨ latest.scarcityLevel = some "Extreme"))
      ∧ (u2.priority = Priority.high ↔ (∃ r, toNum latest.rainfall = some r ∧ r < 700))
      ∧ u3.priority = Priority.normal
      ∧ u4.priority = Priority.normal
      ∧ (u5.priority = Priority.high ↔
          (latest.scarcityLevel = some "High" ∨ latest.scarcityLevel = some "Severe")) := by
  refine ⟨_, _, _, _, _, rfl, rfl, rfl, rfl, rfl, rfl, ?_, ?_, rfl, rfl, ?_⟩
  · exact ite_priority_iff _
  · exact (ite_priority_iff _).trans (jsLt_eq_true_iff _ _)
  · exact ite_priority_iff _

/-- C9: the caller-supplied history is unchanged by the scan (the sort acts
on the spread copy, whose post-statement value is a year-sorted permutation
of the input). -/
theorem history_not_mutated (h : List WaterRecord) :
    (sortCopyByYear h).2 = h
  ∧ List.Perm (sortCopyByYear h).1 h
  ∧ List.Pairwise (fun a b : WaterRecord => a.year ≤ b.year) (sortCopyByYear h).1 := by
  refine ⟨rfl, List.mergeSort_perm h _, ?_⟩
  have hp : ((h.mergeSort fun a b : WaterRecord => decide (a.year ≤ b.year)).Pairwise
      fun a b : WaterRecord => decide (a.year ≤ b.year)) :=
    List.sorted_mergeSort
      (fun a b c hab hbc => by
        simp only [decide_eq_true_eq] at *
        exact le_trans hab hbc)
      (fun a b => by
        simp only [Bool.or_eq_true, decide_eq_true_eq]
        exact le_total a.year b.year)
      h
  exact hp.imp (fun hab => by simpa using hab)

end JalRakshya
